import Mathlib

/-!
Shallow embedding of the Goal subsystem of `src/context/GoalContext.tsx`
(the `GoalProvider` component): reconciliation (`loadGoals`), progress
computation (`updateGoalProgress`), the daily rollover guard
(`resetDailyGoalsForNewDay`) and achievement checking
(`checkGoalAchievements`).

JS `Date` values (local time) are modelled by civil-calendar arithmetic:
instants are milliseconds since the local epoch `1970-01-01T00:00:00.000`
(type `ℤ`); civil dates are `(year, month, day)` triples exactly as JS
`getFullYear()` / `getMonth()` (0-based) / `getDate()` (1-based) return
them.  Monetary amounts are `ℚ`.
-/

namespace GoalEngine

/-- Gregorian leap-year test, as JS `Date` computes it. -/
def isLeapYear (y : ℤ) : Bool :=
  y % 4 == 0 && (y % 100 != 0 || y % 400 == 0)

/-- Number of days of the 0-based month `m` of year `y`. -/
def daysInMonth (y m : ℤ) : ℤ :=
  if m = 1 then (if isLeapYear y then 29 else 28)
  else if m = 3 ∨ m = 5 ∨ m = 8 ∨ m = 10 then 30
  else 31

/-- Day number (days since 1970-01-01) of the civil date `(y, m, d)` with
`m` 0-based in `[0, 11]` and `d` 1-based (a `d` outside the month simply
offsets the day number, which is how JS `new Date(y, m, d)` behaves).
This is Hinnant's `days_from_civil` shifted to 0-based months. -/
def daysFromCivil (y m d : ℤ) : ℤ :=
  let yy := if m ≤ 1 then y - 1 else y
  let era := (if 0 ≤ yy then yy else yy - 399) / 400
  let yoe := yy - era * 400
  let mp := (m + 10) % 12
  let doy := (153 * mp + 2) / 5 + d - 1
  let doe := yoe * 365 + yoe / 4 - yoe / 100 + doy
  era * 146097 + doe - 719468

/-- A civil date as JS accessors expose it: `month` 0-based, `day`
1-based. -/
structure CivilDate where
  year : ℤ
  month : ℤ
  day : ℤ
  deriving DecidableEq

/-- Civil date of a day number; Hinnant's `civil_from_days`, shifted to
0-based months. -/
def civilFromDays (z : ℤ) : CivilDate :=
  let zz := z + 719468
  let era := (if 0 ≤ zz then zz else zz - 146096) / 146097
  let doe := zz - era * 146097
  let yoe := (doe - doe / 1460 + doe / 36524 - doe / 146096) / 365
  let y := yoe + era * 400
  let doy := doe - (365 * yoe + yoe / 4 - yoe / 100)
  let mp := (5 * doy + 2) / 153
  let d := doy - (153 * mp + 2) / 5 + 1
  let m := if mp < 10 then mp + 2 else mp - 10
  { year := if m ≤ 1 then y + 1 else y, month := m, day := d }

/-- Month carry of JS `new Date(y, m, d)`: a 0-based month index outside
`[0, 11]` rolls the year. -/
def normYM (y m : ℤ) : ℤ × ℤ := (y + m.fdiv 12, m.emod 12)

/-- Day number of JS `new Date(y, m, d)` (month possibly out of range,
day possibly `0` or past the month end). -/
def jsDayNum (y m d : ℤ) : ℤ :=
  daysFromCivil (normYM y m).1 (normYM y m).2 d

/-- Milliseconds since the local epoch of
JS `new Date(y, m, d, hh, mi, ss, ms)`. -/
def jsTime (y m d hh mi ss ms : ℤ) : ℤ :=
  jsDayNum y m d * 86400000 + hh * 3600000 + mi * 60000 + ss * 1000 + ms

/-- Civil date of an instant, i.e. what `getFullYear()` / `getMonth()` /
`getDate()` return on a `Date` holding that instant (local time). -/
def civilOfTime (t : ℤ) : CivilDate := civilFromDays (t.fdiv 86400000)

/-- Three-letter weekday name, `0 = Sun` (day number `0`, 1970-01-01, was
a Thursday). -/
def weekdayName (i : ℤ) : String :=
  if i = 0 then "Sun" else if i = 1 then "Mon" else if i = 2 then "Tue"
  else if i = 3 then "Wed" else if i = 4 then "Thu" else if i = 5 then "Fri"
  else "Sat"

/-- Three-letter month name for a 0-based month index. -/
def monthName (m : ℤ) : String :=
  if m = 0 then "Jan" else if m = 1 then "Feb" else if m = 2 then "Mar"
  else if m = 3 then "Apr" else if m = 4 then "May" else if m = 5 then "Jun"
  else if m = 6 then "Jul" else if m = 7 then "Aug" else if m = 8 then "Sep"
  else if m = 9 then "Oct" else if m = 10 then "Nov" else "Dec"

/-- Two-digit zero-padded decimal string of a day of month. -/
def pad2 (n : ℤ) : String :=
  if n < 10 then "0" ++ toString n else toString n

/-- JS `Date.prototype.toDateString` of the date with day number `z`:
the fixed format `"Www Mmm DD YYYY"`. -/
def toDateStringOfDayNum (z : ℤ) : String :=
  let c := civilFromDays z
  weekdayName ((z + 4) % 7) ++ " " ++ monthName c.month ++ " " ++
    pad2 c.day ++ " " ++ toString c.year

/-- `toDateString()` of a `Date` built from civil components. -/
def toDateStringOf (y m d : ℤ) : String :=
  toDateStringOfDayNum (jsDayNum y m d)

/-- The civil components of `now` that the engine reads:
`getFullYear()` (`year`), `getMonth()` (`month`, 0-based), `getDate()`
(`day`, 1-based) and `getHours()` (`hour`). -/
structure LocalNow where
  year : ℤ
  month : ℤ
  day : ℤ
  hour : ℤ := 0
  deriving DecidableEq

/-- Day of month of the last day of the 0-based month `m` of year `y`:
JS `new Date(y, m + 1, 0).getDate()`. -/
def lastDayOfMonth (y m : ℤ) : ℤ :=
  (civilFromDays (jsDayNum y (m + 1) 0)).day

example : daysFromCivil 1970 0 1 = 0 := by decide
example : civilFromDays 0 = ⟨1970, 0, 1⟩ := by decide
example : daysFromCivil 2024 5 1 = 19875 := by decide
example : civilFromDays 19875 = ⟨2024, 5, 1⟩ := by decide
example : toDateStringOf 2024 5 1 = "Sat Jun 01 2024" := by decide
example : lastDayOfMonth 2024 5 = 30 := by decide
example : lastDayOfMonth 2024 1 = 29 := by decide
example : lastDayOfMonth 2023 1 = 28 := by decide
example : lastDayOfMonth 2024 11 = 31 := by decide
example : ∀ y : ℤ, y = 2023 ∨ y = 2024 → ∀ m : ℤ, 0 ≤ m → m ≤ 11 →
    lastDayOfMonth y m = daysInMonth y m := by
  rintro y (rfl | rfl) m hm0 hm11 <;> interval_cases m <;> decide

/-- JS `Math.min` on two (rational) numbers. -/
def jsMinQ (a b : ℚ) : ℚ := if a ≤ b then a else b

/-- JS `Math.max` on two (rational) numbers. -/
def jsMaxQ (a b : ℚ) : ℚ := if a ≤ b then b else a

/-- JS `Math.max` on two integers. -/
def jsMaxI (a b : ℤ) : ℤ := if a ≤ b then b else a

theorem jsMinQ_eq_min (a b : ℚ) : jsMinQ a b = min a b := (min_def a b).symm

theorem jsMaxQ_eq_max (a b : ℚ) : jsMaxQ a b = max a b := (max_def a b).symm

theorem jsMaxI_eq_max (a b : ℤ) : jsMaxI a b = max a b := (max_def a b).symm

/-- A goal record (`SalesGoal` of `src/types/goals`), restricted to the
fields the engine reads.  `period_start` / `period_end` hold the instants
the stored ISO strings parse to; `none` models an absent field (the code
tests them for truthiness before use). -/
structure SalesGoal where
  goal_type : String
  target_amount : ℚ
  period_start : Option ℤ
  period_end : Option ℤ
  goal_name : Option String := none
  deriving DecidableEq

/-- A `GoalProgress` record as `updateGoalProgress` builds it. -/
structure GoalProgress where
  goal : SalesGoal
  current_amount : ℚ
  progress_percentage : ℚ
  is_achieved : Bool
  hours_remaining : Option ℤ := none
  days_remaining : Option ℤ := none
  deriving DecidableEq

/-- A `GoalCelebration` record. -/
structure GoalCelebration where
  goalType : String
  goalAmount : ℚ
  actualAmount : ℚ
  goalName : Option String
  achieved_at : String
  deriving DecidableEq

/-- The engine state the goal subsystem reads and writes: the reducer
fields of `GoalState` it touches, plus the two persisted localStorage
markers (`lastDailyCelebration`, `lastMonthlyCelebration`). -/
structure EngineState where
  dailyGoal : Option SalesGoal := none
  monthlyGoal : Option SalesGoal := none
  dailyProgress : Option GoalProgress := none
  monthlyProgress : Option GoalProgress := none
  lastCelebration : Option GoalCelebration := none
  lastDailyCelebration : Option String := none
  lastMonthlyCelebration : Option String := none
  deriving DecidableEq

/-- Validity test for a daily candidate in `loadGoals` step 2: the goal's
period must overlap today's local day (`todayStart`–`todayEnd`); a goal
lacking either period bound is unconditionally valid. -/
def dailyGoalValid (now : LocalNow) (g : SalesGoal) : Bool :=
  if g.goal_type ≠ "daily" then false
  else
    match g.period_start, g.period_end with
    | some ps, some pe =>
      let todayStart := jsTime now.year now.month now.day 0 0 0 0
      let todayEnd := jsTime now.year now.month now.day 23 59 59 999
      decide (ps ≤ todayEnd ∧ pe ≥ todayStart)
    | _, _ => true

/-- Validity test for a monthly candidate in `loadGoals` step 2: the
goal's period must overlap the current local month (`monthStart` is the
1st at midnight; `monthEnd` is `new Date(y, m + 1, 0, 23, 59, 59, 999)`,
the last day of the month); a goal lacking either bound is valid. -/
def monthlyGoalValid (now : LocalNow) (g : SalesGoal) : Bool :=
  if g.goal_type ≠ "monthly" then false
  else
    match g.period_start, g.period_end with
    | some ps, some pe =>
      let monthStart := jsTime now.year now.month 1 0 0 0 0
      let monthEnd := jsTime now.year (now.month + 1) 0 23 59 59 999
      decide (ps ≤ monthEnd ∧ pe ≥ monthStart)
    | _, _ => true

/-- The carry-over search predicate of `loadGoals`: a monthly goal with
both bounds whose `period_start` lies in the previous calendar month
(`new Date(y, m - 1, 1)`), compared through `getFullYear` / `getMonth`. -/
def isLastMonthMonthly (now : LocalNow) (g : SalesGoal) : Bool :=
  match g.period_start, g.period_end with
  | some ps, some _ =>
    g.goal_type == "monthly" &&
      (let lastMonth := normYM now.year (now.month - 1)
       let c := civilOfTime ps
       c.year == lastMonth.1 && c.month == lastMonth.2)
  | _, _ => false

/-- The payload of the carry-over `createGoal` call: a monthly goal with
the previous month's `target_amount`, bounded to the current month's full
window. -/
def carryOverRequest (now : LocalNow) (target : ℚ) : SalesGoal :=
  { goal_type := "monthly", target_amount := target,
    period_start := some (jsTime now.year now.month 1 0 0 0 0),
    period_end := some (jsTime now.year (now.month + 1) 0 23 59 59 999) }

/-- The payload of the daily auto-derivation `createGoal` call in
`loadGoals` step 5: `Math.ceil(target / daysRemaining)` with
`daysRemaining = Math.max(1, endOfMonth.getDate() - now.getDate() + 1)`,
bounded to today's window. -/
def dailyDeriveRequest (now : LocalNow) (monthlyTarget : ℚ) : SalesGoal :=
  let daysRemaining := jsMaxI 1 (lastDayOfMonth now.year now.month - now.day + 1)
  let suggested := Rat.ceil (monthlyTarget / (daysRemaining : ℚ))
  { goal_type := "daily", target_amount := (suggested : ℚ),
    period_start := some (jsTime now.year now.month now.day 0 0 0 0),
    period_end := some (jsTime now.year now.month now.day 23 59 59 999) }

/-- Inputs of one `loadGoals` run: the Goal Store `getGoals` outcome, the
two Local Cache backup entries (`goal_daily_*` / `goal_monthly_*`,
already parsed; `none` is a cache miss), the current local date, and
whether the two possible `createGoal` calls succeed. -/
structure LoadGoalsInput where
  remote : Except Unit (List SalesGoal)
  cacheDaily : Option SalesGoal := none
  cacheMonthly : Option SalesGoal := none
  now : LocalNow
  carryCreateOk : Bool := true
  dailyCreateOk : Bool := true

/-- Observable outcome of one `loadGoals` run. -/
structure LoadGoalsOutput where
  cacheRead : Bool
  candidates : List SalesGoal
  dailyResolved : Option SalesGoal
  monthlyResolved : Option SalesGoal
  carryRequest : Option SalesGoal
  dailyRequest : Option SalesGoal
  deriving DecidableEq

/-- Step 1 of `loadGoals`: the candidate list and whether the
localStorage backup was consulted — the code reads the cache when the
API call failed **or** when it succeeded with zero goals
(`!apiSuccess || existingGoals.length === 0`), pushing the cached daily
entry then the cached monthly entry onto the list. -/
def loadGoalsCandidates (input : LoadGoalsInput) : List SalesGoal × Bool :=
  let cacheGoals := input.cacheDaily.toList ++ input.cacheMonthly.toList
  match input.remote with
  | .ok gs => if gs.isEmpty then (gs ++ cacheGoals, true) else (gs, false)
  | .error _ => (([] : List SalesGoal) ++ cacheGoals, true)

/-- The monthly carry-over block of `loadGoals`, entered when no monthly
candidate is valid for the current month: only on the first day of the
month it searches the candidates for last month's monthly goal and issues
the carry-over `createGoal` call.  Returns the resolved monthly goal and
the issued request (if any). -/
def carryOverStep (now : LocalNow) (createOk : Bool)
    (cands : List SalesGoal) : Option SalesGoal × Option SalesGoal :=
  if now.day = 1 then
    match cands.find? (isLastMonthMonthly now) with
    | some lastMonthly =>
      let req := carryOverRequest now lastMonthly.target_amount
      (if createOk then some req else none, some req)
    | none => (none, none)
  else (none, none)

/-- Steps 1–5 of `loadGoals` as a pure function.  `dailyResolved` /
`monthlyResolved` are the payloads dispatched by `SET_DAILY_GOAL` /
`SET_MONTHLY_GOAL` in step 4 (the daily goal auto-created in step 5 is
only kept in a local variable, never dispatched in the same run).
`carryRequest` / `dailyRequest` are the payloads of the `createGoal`
calls the run issues, if any; on success the Goal Store echoes the
request, on failure the exception is caught and the track is left
unresolved. -/
def loadGoals (input : LoadGoalsInput) : LoadGoalsOutput :=
  let fetched := loadGoalsCandidates input
  let cands := fetched.1
  let dailySel := cands.find? (dailyGoalValid input.now)
  let monthlySel := cands.find? (monthlyGoalValid input.now)
  let carry : Option SalesGoal × Option SalesGoal :=
    match monthlySel with
    | some g => (some g, none)
    | none => carryOverStep input.now input.carryCreateOk cands
  let monthlyRes := carry.1
  let dailyReq : Option SalesGoal :=
    match dailySel, monthlyRes with
    | none, some mg => some (dailyDeriveRequest input.now mg.target_amount)
    | _, _ => none
  { cacheRead := fetched.2, candidates := cands,
    dailyResolved := dailySel, monthlyResolved := monthlyRes,
    carryRequest := carry.2, dailyRequest := dailyReq }

/-- The daily `GoalProgress` record `updateGoalProgress` dispatches
(`state.dailyGoal?.target_amount || 0` is the identity on a present
numeric target). -/
def mkDailyProgress (goal : SalesGoal) (amount : ℚ) (now : LocalNow) :
    GoalProgress :=
  let target := goal.target_amount
  { goal := goal, current_amount := amount,
    progress_percentage :=
      if target > 0 then jsMinQ (amount / target * 100) 999 else 0,
    is_achieved := if target > 0 then decide (amount ≥ target) else false,
    hours_remaining := some (jsMaxI 0 (24 - now.hour)) }

/-- The monthly `GoalProgress` record `updateGoalProgress` dispatches. -/
def mkMonthlyProgress (goal : SalesGoal) (amount : ℚ) (now : LocalNow) :
    GoalProgress :=
  let target := goal.target_amount
  { goal := goal, current_amount := amount,
    progress_percentage :=
      if target > 0 then jsMinQ (amount / target * 100) 999 else 0,
    is_achieved := if target > 0 then decide (amount ≥ target) else false,
    days_remaining :=
      some (jsMaxI 0 (lastDayOfMonth now.year now.month - now.day)) }

/-- The rollover guard `resetDailyGoalsForNewDay`: when a persisted daily
celebration marker exists and differs from `now.toDateString()`, it
clears any pending celebration, zeroes the daily progress **when a daily
goal is present in state**, and removes the marker. -/
def resetDailyGoalsForNewDay (now : LocalNow) (s : EngineState) :
    EngineState :=
  let today := toDateStringOf now.year now.month now.day
  match s.lastDailyCelebration with
  | some marker =>
    if marker ≠ today then
      let s1 := { s with lastCelebration := none }
      let s2 :=
        match s1.dailyGoal with
        | some g =>
          let zero : GoalProgress :=
            { goal := g, current_amount := 0, progress_percentage := 0,
              is_achieved := false, hours_remaining := some 24 }
          { s1 with dailyProgress := some zero }
        | none => s1
      { s2 with lastDailyCelebration := none }
    else s
  | none => s

/-- The authenticated user, holding the store scope the engine queries
with. -/
structure User where
  store_id : Option String
  deriving DecidableEq

/-- One Sales Metrics Source query, i.e. the `store_id` and `dateRange`
arguments of a `getDashboardAnalytics` call. -/
structure MetricsQuery where
  store_id : Option String
  dateRange : String
  deriving DecidableEq

/-- `updateGoalProgress`: the early-return guard
`!isAuthenticated || !user || !state.dailyGoal || !state.monthlyGoal`,
then the rollover check, the two metrics queries (`dateRange: 'today'`
and `'this_month'`) and the two progress dispatches.  `dailyTotal` /
`monthlyTotal` are the `totalSales` values the queries return.  Returns
the resulting state and the list of metrics queries issued. -/
def updateGoalProgress (isAuthenticated : Bool) (user : Option User)
    (now : LocalNow) (dailyTotal monthlyTotal : ℚ) (s : EngineState) :
    EngineState × List MetricsQuery :=
  match isAuthenticated, user, s.dailyGoal, s.monthlyGoal with
  | true, some u, some dg, some mg =>
    let s1 := resetDailyGoalsForNewDay now s
    let queries := [⟨u.store_id, "today"⟩, ⟨u.store_id, "this_month"⟩]
    ({ s1 with dailyProgress := some (mkDailyProgress dg dailyTotal now),
               monthlyProgress :=
                 some (mkMonthlyProgress mg monthlyTotal now) }, queries)
  | _, _, _, _ => (s, [])

/-- Truthy-and-different test on a nullable localStorage marker
(`lastDailyCelebration && lastDailyCelebration !== today`). -/
def staleMarker (marker : Option String) (today : String) : Bool :=
  match marker with
  | some v => v != today
  | none => false

/-- The period key of the monthly track: the template literal
`${now.getFullYear()}-${now.getMonth()}` (0-based month). -/
def monthKeyOf (now : LocalNow) : String :=
  toString now.year ++ "-" ++ toString now.month

/-- Result of one `checkGoalAchievements` run: the state it leaves, the
`showNotification` calls it makes (by tag, in order), the
`SET_LAST_CELEBRATION` payloads it dispatches (in order), and whether the
run ended in a thrown exception (`aborted`). -/
structure CheckResult where
  state : EngineState
  notifyCalls : List String
  celebrationsSet : List GoalCelebration
  aborted : Bool
  deriving DecidableEq

/-- The monthly half of `checkGoalAchievements`, entered with state `s`
and the notify calls / celebration dispatches accumulated so far.  The
non-null assertion `state.monthlyGoal!` throws when the goal is absent;
an un-awaited notification rejection (`monthlyNotifyOk = false`) rejects
the run after all its effects. -/
def checkMonthlyPart (mp : GoalProgress) (thisMonth nowIso : String)
    (monthlyNotifyOk : Bool) (s : EngineState) (calls : List String)
    (cels : List GoalCelebration) : CheckResult :=
  if mp.is_achieved ∧ s.lastMonthlyCelebration ≠ some thisMonth then
    match s.monthlyGoal with
    | none =>
      { state := s, notifyCalls := calls, celebrationsSet := cels,
        aborted := true }
    | some mg =>
      let c : GoalCelebration :=
        { goalType := "monthly", goalAmount := mg.target_amount,
          actualAmount := mp.current_amount, goalName := mg.goal_name,
          achieved_at := nowIso }
      let s2 := { s with lastMonthlyCelebration := some thisMonth,
                         lastCelebration := some c }
      { state := s2,
        notifyCalls := calls ++ ["monthly-goal-achievement"],
        celebrationsSet := cels ++ [c], aborted := !monthlyNotifyOk }
  else
    { state := s, notifyCalls := calls, celebrationsSet := cels,
      aborted := false }

/-- `checkGoalAchievements`.  `dailyNotifyOk` / `monthlyNotifyOk` say
whether the corresponding awaited `showNotification` promise resolves;
the function has no try/catch, so a rejected daily notification throws
out of the run before the monthly half executes (`aborted = true`).  The
localStorage markers are written *before* the notification is awaited. -/
def checkGoalAchievements (now : LocalNow) (nowIso : String)
    (dailyNotifyOk monthlyNotifyOk : Bool) (s : EngineState) :
    CheckResult :=
  match s.dailyProgress, s.monthlyProgress with
  | some dp, some mp =>
    let today := toDateStringOf now.year now.month now.day
    let thisMonth := monthKeyOf now
    let s1 :=
      if staleMarker s.lastDailyCelebration today then
        { s with lastCelebration := none }
      else s
    if dp.is_achieved ∧ s.lastDailyCelebration ≠ some today then
      match s.dailyGoal with
      | none =>
        { state := s1, notifyCalls := [], celebrationsSet := [],
          aborted := true }
      | some dg =>
        let c : GoalCelebration :=
          { goalType := "daily", goalAmount := dg.target_amount,
            actualAmount := dp.current_amount, goalName := dg.goal_name,
            achieved_at := nowIso }
        let s2 := { s1 with lastDailyCelebration := some today,
                            lastCelebration := some c }
        if dailyNotifyOk then
          checkMonthlyPart mp thisMonth nowIso monthlyNotifyOk s2
            ["daily-goal-achievement"] [c]
        else
          { state := s2, notifyCalls := ["daily-goal-achievement"],
            celebrationsSet := [c], aborted := true }
    else
      checkMonthlyPart mp thisMonth nowIso monthlyNotifyOk s1 [] []
  | _, _ =>
    { state := s, notifyCalls := [], celebrationsSet := [],
      aborted := false }

/-- `n` consecutive `checkGoalAchievements` invocations with all
notifications succeeding, threading the state and concatenating the
notify calls and celebration dispatches. -/
def runChecks (now : LocalNow) (nowIso : String) (s : EngineState) :
    ℕ → EngineState × List String × List GoalCelebration
  | 0 => (s, [], [])
  | n + 1 =>
    let r := checkGoalAchievements now nowIso true true s
    let rest := runChecks now nowIso r.state n
    (rest.1, r.notifyCalls ++ rest.2.1, r.celebrationsSet ++ rest.2.2)

/-! ### Helper lemmas -/

theorem neg_ediv_of_not_dvd {a b : ℤ} (hb : 0 < b) (h : ¬ b ∣ a) :
    (-a) / b = -(a / b) - 1 := by
  have h0 : a % b ≠ 0 := fun hh => h (Int.dvd_of_emod_eq_zero hh)
  have h1 : 0 ≤ a % b := Int.emod_nonneg a hb.ne'
  have h2 : a % b < b := Int.emod_lt_of_pos a hb
  have hdm := Int.ediv_add_emod a b
  have key : -a = (b - a % b) + (-(a / b) - 1) * b := by linarith
  rw [key, Int.add_mul_ediv_right _ _ hb.ne']
  rw [Int.ediv_eq_zero_of_lt (by omega) (by omega)]
  ring

/-- `Rat.ceil` (the executable ceiling the model uses for `Math.ceil`)
agrees with Mathlib's `Int.ceil`. -/
theorem rat_ceil_eq_ceil (q : ℚ) : Rat.ceil q = ⌈q⌉ := by
  have hfloor : ∀ r : ℚ, ⌊r⌋ = Rat.floor r := fun r => by
    rw [Rat.floor_def, Rat.floor_def']
  have hceil : ⌈q⌉ = -⌊-q⌋ := rfl
  rw [hceil, hfloor]
  unfold Rat.ceil Rat.floor
  simp only [Rat.neg_num, Rat.neg_den]
  split
  · next h => simp [h]
  · next h =>
    have hb : (0:ℤ) < (q.den : ℤ) := by exact_mod_cast q.pos
    have hndvd : ¬ ((q.den : ℤ) ∣ q.num) := by
      intro hdvd
      have hd : q.den ∣ q.num.natAbs := by
        rwa [Int.natCast_dvd_natCast.symm, Int.dvd_natAbs]
      exact h (Nat.Coprime.eq_one_of_dvd (Nat.Coprime.symm q.reduced) hd)
    rw [neg_ediv_of_not_dvd hb hndvd]
    ring

/-- Two closed intervals of instants intersect exactly when each starts
no later than the other ends. -/
theorem interval_overlap_iff {a b c d : ℤ} (hab : a ≤ b) (hcd : c ≤ d) :
    (a ≤ d ∧ c ≤ b) ↔ ∃ t, a ≤ t ∧ t ≤ b ∧ c ≤ t ∧ t ≤ d := by
  constructor
  · rintro ⟨had, hcb⟩
    exact ⟨max a c, le_max_left _ _, max_le hab hcb, le_max_right _ _,
      max_le had hcd⟩
  · rintro ⟨t, h1, h2, h3, h4⟩
    exact ⟨le_trans h1 h4, le_trans h3 h2⟩

/-- A local calendar day's window is a nonempty interval. -/
theorem day_window_nonempty (y m d : ℤ) :
    jsTime y m d 0 0 0 0 ≤ jsTime y m d 23 59 59 999 := by
  unfold jsTime
  omega

/-! ### Concrete fixtures used by witnesses and counterexamples -/

/-- `now = 2024-04-15` (April; `getMonth() = 3`). -/
def aprilNow : LocalNow := { year := 2024, month := 3, day := 15 }

/-- Goal `A` of the spec's window-overlap example: March 2024. -/
def goalA : SalesGoal :=
  { goal_type := "monthly", target_amount := 5000,
    period_start := some (jsTime 2024 2 1 0 0 0 0),
    period_end := some (jsTime 2024 2 31 23 59 59 999) }

/-- Goal `B` of the spec's window-overlap example: April 2024. -/
def goalB : SalesGoal :=
  { goal_type := "monthly", target_amount := 7000,
    period_start := some (jsTime 2024 3 1 0 0 0 0),
    period_end := some (jsTime 2024 3 30 23 59 59 999) }

/-- `now = 2024-06-01T00:05` (June; `getMonth() = 5`), the spec's
end-to-end scenario instant. -/
def juneNow : LocalNow := { year := 2024, month := 5, day := 1, hour := 0 }

/-- May 2024 monthly goal with `target_amount = 100000`. -/
def mayGoal : SalesGoal :=
  { goal_type := "monthly", target_amount := 100000,
    period_start := some (jsTime 2024 4 1 0 0 0 0),
    period_end := some (jsTime 2024 5 0 23 59 59 999) }

/-- Reconciliation input of the end-to-end scenario: the store returns
only last month's goal. -/
def juneInput : LoadGoalsInput := { remote := .ok [mayGoal], now := juneNow }

/-- A cached daily goal without period bounds (a legacy/manual backup
entry). -/
def cachedDailyGoal : SalesGoal :=
  { goal_type := "daily", target_amount := 100,
    period_start := none, period_end := none }

/-- Reconciliation input where the Goal Store call *succeeds* with zero
goals while the Local Cache holds a daily backup entry. -/
def emptyRemoteInput : LoadGoalsInput :=
  { remote := .ok [], cacheDaily := some cachedDailyGoal, now := aprilNow }

/-- A daily goal used in achievement fixtures. -/
def fixDailyGoal : SalesGoal :=
  { goal_type := "daily", target_amount := 1000,
    period_start := none, period_end := none, goal_name := some "daily" }

/-- A monthly goal used in achievement fixtures. -/
def fixMonthlyGoal : SalesGoal :=
  { goal_type := "monthly", target_amount := 30000,
    period_start := none, period_end := none, goal_name := some "monthly" }

/-- An achieved daily progress record (literal fields). -/
def fixDailyProgress : GoalProgress :=
  { goal := fixDailyGoal, current_amount := 1500,
    progress_percentage := 150, is_achieved := true,
    hours_remaining := some 24 }

/-- An achieved monthly progress record (literal fields). -/
def fixMonthlyProgress : GoalProgress :=
  { goal := fixMonthlyGoal, current_amount := 31000,
    progress_percentage := 103, is_achieved := true,
    days_remaining := some 29 }

/-- Engine state with both tracks achieved and no celebration markers. -/
def fixAchievedState : EngineState :=
  { dailyGoal := some fixDailyGoal, monthlyGoal := some fixMonthlyGoal,
    dailyProgress := some fixDailyProgress,
    monthlyProgress := some fixMonthlyProgress }

/-- A stale (non-achieved, non-zero) daily progress record left over from
the previous day. -/
def staleDailyProgress : GoalProgress :=
  { goal := fixDailyGoal, current_amount := 500,
    progress_percentage := 50, is_achieved := false }

/-- State carrying yesterday's daily celebration marker and a stale daily
progress, but **no** daily goal in state. -/
def staleNoGoalState : EngineState :=
  { dailyGoal := none, dailyProgress := some staleDailyProgress,
    lastDailyCelebration := some "Fri May 31 2024" }

/-- State carrying yesterday's daily celebration marker, a stale daily
progress and a present daily goal. -/
def staleWithGoalState : EngineState :=
  { dailyGoal := some fixDailyGoal,
    dailyProgress := some staleDailyProgress,
    lastDailyCelebration := some "Fri May 31 2024" }

/-- An authenticated user whose `store_id` is absent. -/
def storelessUser : User := { store_id := none }

/-- State with both goals present (progress not yet computed). -/
def bothGoalsState : EngineState :=
  { dailyGoal := some fixDailyGoal, monthlyGoal := some fixMonthlyGoal }

/-! ### Claim theorems -/

/-- Claim C3 (confirmed): for every progress computation with a
non-negative sales total, when `target_amount > 0` the percentage is
`current / target * 100` clamped to `[0, 999]` and `is_achieved` is
`current ≥ target`; when `target_amount = 0` the percentage is `0` and
`is_achieved` is `false` (the formulas guard the division behind
`target > 0`, so no division by zero is performed).  Both the daily and
the monthly record builders are covered. -/
theorem C3_progress_formula (goal : SalesGoal) (amount : ℚ) (now : LocalNow)
    (hamt : 0 ≤ amount) :
    (0 < goal.target_amount →
      (mkDailyProgress goal amount now).progress_percentage =
        max 0 (min (amount / goal.target_amount * 100) 999) ∧
      ((mkDailyProgress goal amount now).is_achieved = true ↔
        goal.target_amount ≤ amount) ∧
      (mkMonthlyProgress goal amount now).progress_percentage =
        max 0 (min (amount / goal.target_amount * 100) 999) ∧
      ((mkMonthlyProgress goal amount now).is_achieved = true ↔
        goal.target_amount ≤ amount)) ∧
    (goal.target_amount = 0 →
      (mkDailyProgress goal amount now).progress_percentage = 0 ∧
      (mkDailyProgress goal amount now).is_achieved = false ∧
      (mkMonthlyProgress goal amount now).progress_percentage = 0 ∧
      (mkMonthlyProgress goal amount now).is_achieved = false) := by
  constructor
  · intro ht
    have hq : (0:ℚ) ≤ amount / goal.target_amount * 100 := by positivity
    have hpct : jsMinQ (amount / goal.target_amount * 100) 999 =
        max 0 (min (amount / goal.target_amount * 100) 999) := by
      rw [jsMinQ_eq_min, eq_comm]
      exact max_eq_right (le_min hq (by norm_num))
    refine ⟨?_, ?_, ?_, ?_⟩ <;>
      simp [mkDailyProgress, mkMonthlyProgress, ht, hpct, ge_iff_le]
  · intro h0
    refine ⟨?_, ?_, ?_, ?_⟩ <;>
      simp [mkDailyProgress, mkMonthlyProgress, h0]

/-- Witness for C3 at `target = 1000`, `amount = 1500` (and the zero
target case at the same amount). -/
theorem C3_progress_formula_witness :
    (0 ≤ (1500 : ℚ)) ∧
    ((mkDailyProgress fixDailyGoal 1500 juneNow).is_achieved = true ↔
      fixDailyGoal.target_amount ≤ 1500) ∧
    (mkDailyProgress fixDailyGoal 1500 juneNow).progress_percentage =
      max 0 (min ((1500 : ℚ) / fixDailyGoal.target_amount * 100) 999) :=
  ⟨by norm_num,
   ((C3_progress_formula fixDailyGoal 1500 juneNow (by norm_num)).1
      (by norm_num [fixDailyGoal])).2.1,
   ((C3_progress_formula fixDailyGoal 1500 juneNow (by norm_num)).1
      (by norm_num [fixDailyGoal])).1⟩

/-- Claim C1 counterexample: the Goal Store call *succeeds* with zero
goals (`remote = .ok []`) and yet the reconciler reads the Local Cache
and resolves the daily track to the cached goal rather than to "no
goal". -/
theorem C1_cache_read_counterexample :
    emptyRemoteInput.remote = .ok [] ∧
    (loadGoals emptyRemoteInput).cacheRead = true ∧
    (loadGoals emptyRemoteInput).dailyResolved = some cachedDailyGoal := by
  refine ⟨rfl, by decide, by decide⟩

/-- Claim C1 (corrected): the Local Cache is read exactly when the Goal
Store call threw **or** succeeded with an empty list; when the call
succeeds with a non-empty list the whole reconciliation outcome is
independent of the cache contents. -/
theorem C1_cache_fallback_amended :
    (∀ input : LoadGoalsInput,
      (loadGoals input).cacheRead = true ↔
        (input.remote = .error () ∨ input.remote = .ok [])) ∧
    (∀ (input : LoadGoalsInput) (gs : List SalesGoal)
        (cd cm : Option SalesGoal),
      input.remote = .ok gs → gs ≠ [] →
      loadGoals { input with cacheDaily := cd, cacheMonthly := cm } =
        loadGoals input) := by
  constructor
  · intro input
    rcases hrem : input.remote with e | gs
    · cases e
      simp [loadGoals, loadGoalsCandidates, hrem]
    · cases gs with
      | nil => simp [loadGoals, loadGoalsCandidates, hrem]
      | cons g tl => simp [loadGoals, loadGoalsCandidates, hrem]
  · intro input gs cd cm hrem hne
    cases gs with
    | nil => exact absurd rfl hne
    | cons g tl => simp [loadGoals, loadGoalsCandidates, hrem]

/-- Witness for C1 (amended): with a non-empty successful remote result
the cache entries are irrelevant, and the cache-read flag is off. -/
theorem C1_cache_fallback_amended_witness :
    ((.ok [mayGoal] : Except Unit (List SalesGoal)) ≠ .error () ∧
      (.ok [mayGoal] : Except Unit (List SalesGoal)) ≠ .ok []) ∧
    loadGoals { juneInput with cacheDaily := some cachedDailyGoal,
                               cacheMonthly := some cachedDailyGoal } =
      loadGoals juneInput :=
  ⟨by simp,
   C1_cache_fallback_amended.2 juneInput [mayGoal] (some cachedDailyGoal)
     (some cachedDailyGoal) rfl (by decide)⟩

/-- Claim C9 counterexample: a stale daily marker exists
(`"Fri May 31 2024" ≠ "Sat Jun 01 2024"`), but because `state.dailyGoal`
is `null` the guard leaves the in-memory daily progress at
`current_amount = 500` instead of resetting it to the zero-state. -/
theorem C9_rollover_reset_counterexample :
    staleNoGoalState.lastDailyCelebration = some "Fri May 31 2024" ∧
    toDateStringOf 2024 5 1 = "Sat Jun 01 2024" ∧
    (resetDailyGoalsForNewDay juneNow staleNoGoalState).dailyProgress =
      some staleDailyProgress ∧
    staleDailyProgress.current_amount = 500 := by
  refine ⟨rfl, by decide, by decide, rfl⟩

/-- Claim C9 (corrected): on a stale marker the guard clears
`lastCelebration` and removes the marker, and it resets the daily
progress to the zero-state **only when a daily goal is present in
state** (the zero record references that goal); with `dailyGoal = null`
the progress is left untouched.  When the marker is absent or equals
today's string, the state is unchanged. -/
theorem C9_rollover_reset_amended (now : LocalNow) (s : EngineState) :
    (∀ v, s.lastDailyCelebration = some v →
      v ≠ toDateStringOf now.year now.month now.day →
      (∀ g, s.dailyGoal = some g →
        resetDailyGoalsForNewDay now s =
          { s with lastCelebration := none,
                   dailyProgress := some
                     { goal := g, current_amount := 0,
                       progress_percentage := 0, is_achieved := false,
                       hours_remaining := some 24 },
                   lastDailyCelebration := none }) ∧
      (s.dailyGoal = none →
        resetDailyGoalsForNewDay now s =
          { s with lastCelebration := none,
                   lastDailyCelebration := none })) ∧
    (s.lastDailyCelebration =
        some (toDateStringOf now.year now.month now.day) →
      resetDailyGoalsForNewDay now s = s) ∧
    (s.lastDailyCelebration = none →
      resetDailyGoalsForNewDay now s = s) := by
  obtain ⟨dgo, mgo, dpr, mpr, lc, ldc, lmc⟩ := s
  refine ⟨?_, ?_, ?_⟩
  · rintro v rfl hne
    constructor
    · rintro g rfl
      simp [resetDailyGoalsForNewDay, hne]
    · rintro rfl
      simp [resetDailyGoalsForNewDay, hne]
  · rintro rfl
    simp [resetDailyGoalsForNewDay]
  · rintro rfl
    simp [resetDailyGoalsForNewDay]

/-- Witness for C9 (amended), exercising the reset branch with a present
daily goal at the 2024-05-31 → 2024-06-01 rollover. -/
theorem C9_rollover_reset_amended_witness :
    resetDailyGoalsForNewDay juneNow staleWithGoalState =
      { staleWithGoalState with
          lastCelebration := none,
          dailyProgress := some
            { goal := fixDailyGoal, current_amount := 0,
              progress_percentage := 0, is_achieved := false,
              hours_remaining := some 24 },
          lastDailyCelebration := none } :=
  ((C9_rollover_reset_amended juneNow staleWithGoalState).1
    "Fri May 31 2024" rfl (by decide)).1 fixDailyGoal rfl

/-- Claim C10 counterexample: an authenticated user *without* a store
scope and both goals present does not short-circuit
`updateGoalProgress`: the two Sales Metrics Source queries are still
issued (with an absent `store_id`). -/
theorem C10_guard_counterexample :
    storelessUser.store_id = none ∧
    bothGoalsState.dailyGoal.isSome = true ∧
    bothGoalsState.monthlyGoal.isSome = true ∧
    (updateGoalProgress true (some storelessUser) juneNow 0 0
        bothGoalsState).2 =
      [{ store_id := none, dateRange := "today" },
       { store_id := none, dateRange := "this_month" }] := by
  refine ⟨rfl, rfl, rfl, rfl⟩

/-- Claim C10 (corrected): the guard of `updateGoalProgress` is
`!isAuthenticated || !user || !state.dailyGoal || !state.monthlyGoal`;
under any of those four conditions the call returns immediately, issues
no Sales Metrics Source query and leaves every state field unchanged
(the user's store scope is *not* part of the guard). -/
theorem C10_guard_amended (isAuth : Bool) (user : Option User)
    (now : LocalNow) (dailyTotal monthlyTotal : ℚ) (s : EngineState)
    (h : isAuth = false ∨ user = none ∨ s.dailyGoal = none ∨
      s.monthlyGoal = none) :
    updateGoalProgress isAuth user now dailyTotal monthlyTotal s =
      (s, []) := by
  obtain ⟨dgo, mgo, dpr, mpr, lc, ldc, lmc⟩ := s
  dsimp only at h
  cases isAuth <;> rcases user with _ | u <;> cases dgo <;> cases mgo <;>
    simp_all [updateGoalProgress]

/-- Witness for C10 (amended): with the daily goal absent (and the
monthly one present) the call is a no-op with no queries. -/
theorem C10_guard_amended_witness :
    updateGoalProgress true (some storelessUser) juneNow 0 0
        { monthlyGoal := some fixMonthlyGoal } =
      ({ monthlyGoal := some fixMonthlyGoal }, []) :=
  C10_guard_amended true (some storelessUser) juneNow 0 0
    { monthlyGoal := some fixMonthlyGoal } (Or.inr (Or.inr (Or.inl rfl)))

/-- Claim C4 counterexample: on 2024-06-01 the daily marker the
achievement check persists is `"Sat Jun 01 2024"` (JS
`Date#toDateString`), not `"2024-06-01"`, and the monthly marker is
`"2024-5"` (template literal with the 0-based `getMonth()`), not
`"2024-06"`. -/
theorem C4_marker_format_counterexample :
    (checkGoalAchievements juneNow "2024-06-01T00:05:00.000Z" true true
        fixAchievedState).state.lastDailyCelebration =
      some "Sat Jun 01 2024" ∧
    some "Sat Jun 01 2024" ≠ some "2024-06-01" ∧
    (checkGoalAchievements juneNow "2024-06-01T00:05:00.000Z" true true
        fixAchievedState).state.lastMonthlyCelebration =
      some "2024-5" ∧
    some "2024-5" ≠ some "2024-06" := by
  refine ⟨by decide, by decide, by decide, by decide⟩

/-- Claim C4 (corrected): the per-track markers are period-identity
strings, but their formats are `Date#toDateString`'s
`"Www Mmm DD YYYY"` for the daily track and
`` `${year}-${month0}` `` (0-based month, no padding) for the monthly
track; in June 2024 they are `"Sat Jun 01 2024"` and `"2024-5"`. -/
theorem C4_marker_format_amended :
    toDateStringOf 2024 5 1 = "Sat Jun 01 2024" ∧
    monthKeyOf juneNow = "2024-5" ∧
    (checkGoalAchievements juneNow "2024-06-01T00:05:00.000Z" true true
        fixAchievedState).state.lastDailyCelebration =
      some (toDateStringOf 2024 5 1) ∧
    (checkGoalAchievements juneNow "2024-06-01T00:05:00.000Z" true true
        fixAchievedState).state.lastMonthlyCelebration =
      some (monthKeyOf juneNow) := by
  refine ⟨by decide, by decide, by decide, by decide⟩

/-- Claim C8 (confirmed): a bounded candidate is selected for a track iff
its `[period_start, period_end]` interval intersects the current local
day (daily) resp. month (monthly) window; a candidate lacking a bound is
unconditionally valid; and on the spec's example (`A = March`,
`B = April`, `now = April 15`) the monthly reconciliation resolves `B`,
not `A`. -/
theorem C8_window_overlap_selection :
    (∀ (now : LocalNow) (g : SalesGoal) (ps pe : ℤ),
      g.goal_type = "daily" → g.period_start = some ps →
      g.period_end = some pe → ps ≤ pe →
      (dailyGoalValid now g = true ↔
        ∃ t, ps ≤ t ∧ t ≤ pe ∧
          jsTime now.year now.month now.day 0 0 0 0 ≤ t ∧
          t ≤ jsTime now.year now.month now.day 23 59 59 999)) ∧
    (∀ (now : LocalNow) (g : SalesGoal) (ps pe : ℤ),
      g.goal_type = "monthly" → g.period_start = some ps →
      g.period_end = some pe → ps ≤ pe →
      jsTime now.year now.month 1 0 0 0 0 ≤
        jsTime now.year (now.month + 1) 0 23 59 59 999 →
      (monthlyGoalValid now g = true ↔
        ∃ t, ps ≤ t ∧ t ≤ pe ∧
          jsTime now.year now.month 1 0 0 0 0 ≤ t ∧
          t ≤ jsTime now.year (now.month + 1) 0 23 59 59 999)) ∧
    (∀ (now : LocalNow) (g : SalesGoal),
      g.goal_type = "daily" →
      g.period_start = none ∨ g.period_end = none →
      dailyGoalValid now g = true) ∧
    (∀ (now : LocalNow) (g : SalesGoal),
      g.goal_type = "monthly" →
      g.period_start = none ∨ g.period_end = none →
      monthlyGoalValid now g = true) ∧
    (monthlyGoalValid aprilNow goalA = false ∧
      monthlyGoalValid aprilNow goalB = true ∧
      (loadGoals { remote := .ok [goalA, goalB],
                   now := aprilNow }).monthlyResolved = some goalB) := by
  refine ⟨?_, ?_, ?_, ?_, by decide, by decide, by decide⟩
  · intro now g ps pe hty hps hpe hle
    simp only [dailyGoalValid, hty, hps, hpe, ne_eq, not_true_eq_false,
      if_false, ge_iff_le, decide_eq_true_eq]
    exact interval_overlap_iff hle (day_window_nonempty _ _ _)
  · intro now g ps pe hty hps hpe hle hw
    simp only [monthlyGoalValid, hty, hps, hpe, ne_eq, not_true_eq_false,
      if_false, ge_iff_le, decide_eq_true_eq]
    exact interval_overlap_iff hle hw
  · intro now g hty hnone
    rcases hps : g.period_start with _ | ps <;>
      rcases hpe : g.period_end with _ | pe <;>
        simp_all [dailyGoalValid, hty]
  · intro now g hty hnone
    rcases hps : g.period_start with _ | ps <;>
      rcases hpe : g.period_end with _ | pe <;>
        simp_all [monthlyGoalValid, hty]

/-- Witness for C8, instantiating the monthly overlap equivalence at
goal `B` and `now = 2024-04-15`. -/
theorem C8_window_overlap_selection_witness :
    (goalB.goal_type = "monthly" ∧
      jsTime 2024 3 1 0 0 0 0 ≤ jsTime 2024 3 30 23 59 59 999) ∧
    (monthlyGoalValid aprilNow goalB = true ↔
      ∃ t, jsTime 2024 3 1 0 0 0 0 ≤ t ∧
        t ≤ jsTime 2024 3 30 23 59 59 999 ∧
        jsTime aprilNow.year aprilNow.month 1 0 0 0 0 ≤ t ∧
        t ≤ jsTime aprilNow.year (aprilNow.month + 1) 0 23 59 59 999) :=
  ⟨⟨rfl, by decide⟩,
   C8_window_overlap_selection.2.1 aprilNow goalB _ _ rfl rfl rfl
     (by decide) (by decide)⟩

/-- Claim C6 (confirmed): when no monthly candidate is valid for the
current month, the carry-over `createGoal` call is issued **iff** today
is the 1st of the month and a monthly candidate whose `period_start`
falls in the previous calendar month exists; the issued request copies
that candidate's `target_amount` and is bounded to the current month's
full window; and on any other day of the month the monthly goal resolves
to `null`. -/
theorem C6_carry_over_gate (input : LoadGoalsInput)
    (hsel : (loadGoalsCandidates input).1.find?
      (monthlyGoalValid input.now) = none) :
    ((loadGoals input).carryRequest.isSome = true ↔
      (input.now.day = 1 ∧ ∃ g ∈ (loadGoals input).candidates,
        g.goal_type = "monthly" ∧ ∃ ps, g.period_start = some ps ∧
          (civilOfTime ps).year =
            (normYM input.now.year (input.now.month - 1)).1 ∧
          (civilOfTime ps).month =
            (normYM input.now.year (input.now.month - 1)).2)) ∧
    (∀ req, (loadGoals input).carryRequest = some req →
      req.goal_type = "monthly" ∧
      req.period_start =
        some (jsTime input.now.year input.now.month 1 0 0 0 0) ∧
      req.period_end =
        some (jsTime input.now.year (input.now.month + 1) 0 23 59 59 999) ∧
      ∃ g, (loadGoals input).candidates.find?
          (isLastMonthMonthly input.now) = some g ∧
        req.target_amount = g.target_amount) ∧
    (input.now.day ≠ 1 → (loadGoals input).monthlyResolved = none) ∧
    (input.carryCreateOk = true →
      (loadGoals input).monthlyResolved = (loadGoals input).carryRequest) := by
  have hvalid := List.find?_eq_none.mp hsel
  simp only [loadGoals, hsel]
  by_cases hday : input.now.day = 1
  · rcases hfind : (loadGoalsCandidates input).1.find?
        (isLastMonthMonthly input.now) with _ | g
    · have hnot := List.find?_eq_none.mp hfind
      have hstep : carryOverStep input.now input.carryCreateOk
          (loadGoalsCandidates input).1 = (none, none) := by
        simp [carryOverStep, hday, hfind]
      rw [hstep]
      refine ⟨?_, ?_, fun _ => rfl, fun _ => rfl⟩
      · constructor
        · intro h
          simp at h
        · rintro ⟨-, g, hmem, hty, ps, hps, hy, hm⟩
          rcases hpe : g.period_end with _ | pe
          · have hval : monthlyGoalValid input.now g = true := by
              simp [monthlyGoalValid, hty, hps, hpe]
            exact absurd hval (by simpa using hvalid g hmem)
          · have hlm : isLastMonthMonthly input.now g = true := by
              simp [isLastMonthMonthly, hps, hpe, hty, hy, hm]
            exact absurd hlm (by simpa using hnot g hmem)
      · intro req hreq
        simp at hreq
    · have hstep : carryOverStep input.now input.carryCreateOk
          (loadGoalsCandidates input).1 =
          (if input.carryCreateOk then
              some (carryOverRequest input.now g.target_amount)
            else none,
           some (carryOverRequest input.now g.target_amount)) := by
        simp [carryOverStep, hday, hfind]
      rw [hstep]
      refine ⟨?_, ?_, fun hcon => absurd hday hcon, ?_⟩
      · constructor
        · intro _h
          refine ⟨hday, g, List.mem_of_find?_eq_some hfind, ?_⟩
          have hg := List.find?_some hfind
          rcases hps : g.period_start with _ | ps
          · simp [isLastMonthMonthly, hps] at hg
          · rcases hpe : g.period_end with _ | pe
            · simp [isLastMonthMonthly, hps, hpe] at hg
            · simp only [isLastMonthMonthly, hps, hpe, Bool.and_eq_true,
                beq_iff_eq] at hg
              exact ⟨hg.1, ps, rfl, hg.2.1, hg.2.2⟩
        · intro _h
          simp
      · intro req hreq
        have hreq' : carryOverRequest input.now g.target_amount = req :=
          Option.some.inj hreq
        subst hreq'
        exact ⟨rfl, rfl, rfl, g, rfl, rfl⟩
      · intro hok
        rw [hok]
        simp
  · have hstep : carryOverStep input.now input.carryCreateOk
        (loadGoalsCandidates input).1 = (none, none) := by
      simp [carryOverStep, hday]
    rw [hstep]
    refine ⟨?_, ?_, fun _ => rfl, fun _ => rfl⟩
    · constructor
      · intro h
        simp at h
      · rintro ⟨h1, -⟩
        exact absurd h1 hday
    · intro req hreq
      simp at hreq

/-- Witness for C6 at the end-to-end scenario: store returns only May's
monthly goal, `now = 2024-06-01`; the carry-over request is issued and,
the create succeeding, resolves the monthly track. -/
theorem C6_carry_over_gate_witness :
    ((loadGoalsCandidates juneInput).1.find?
        (monthlyGoalValid juneInput.now) = none ∧ juneNow.day = 1) ∧
    ((loadGoals juneInput).carryRequest.isSome = true ↔
      (juneInput.now.day = 1 ∧ ∃ g ∈ (loadGoals juneInput).candidates,
        g.goal_type = "monthly" ∧ ∃ ps, g.period_start = some ps ∧
          (civilOfTime ps).year =
            (normYM juneInput.now.year (juneInput.now.month - 1)).1 ∧
          (civilOfTime ps).month =
            (normYM juneInput.now.year (juneInput.now.month - 1)).2)) ∧
    (loadGoals juneInput).monthlyResolved = (loadGoals juneInput).carryRequest :=
  ⟨⟨by decide, rfl⟩,
   (C6_carry_over_gate juneInput (by decide)).1,
   (C6_carry_over_gate juneInput (by decide)).2.2.2 rfl⟩

/-- Claim C7 (confirmed): whenever the daily track resolves to nothing
but the monthly track is resolved, `loadGoals` issues a daily
`createGoal` whose target is `⌈monthly.target / daysRemaining⌉` with
`daysRemaining = max 1 (lastDayOfMonth - dayOfMonth + 1)` (days left in
the month including today, floored at 1), bounded to today's window
`[00:00:00.000, 23:59:59.999]`. -/
theorem C7_daily_derivation (input : LoadGoalsInput) (mg : SalesGoal)
    (hdaily : (loadGoals input).dailyResolved = none)
    (hmonthly : (loadGoals input).monthlyResolved = some mg) :
    (loadGoals input).dailyRequest =
      some (dailyDeriveRequest input.now mg.target_amount) ∧
    (dailyDeriveRequest input.now mg.target_amount).target_amount =
      ((⌈mg.target_amount /
          (jsMaxI 1 (lastDayOfMonth input.now.year input.now.month -
            input.now.day + 1) : ℚ)⌉ : ℤ) : ℚ) ∧
    1 ≤ jsMaxI 1 (lastDayOfMonth input.now.year input.now.month -
      input.now.day + 1) ∧
    (dailyDeriveRequest input.now mg.target_amount).period_start =
      some (jsTime input.now.year input.now.month input.now.day 0 0 0 0) ∧
    (dailyDeriveRequest input.now mg.target_amount).period_end =
      some (jsTime input.now.year input.now.month input.now.day
        23 59 59 999) := by
  refine ⟨?_, ?_, ?_, rfl, rfl⟩
  · simp only [loadGoals] at hdaily hmonthly ⊢
    rw [hdaily, hmonthly]
  · simp only [dailyDeriveRequest, rat_ceil_eq_ceil]
  · unfold jsMaxI
    split <;> omega

/-- Witness for C7 at the end-to-end scenario: after the June carry-over
resolves the monthly goal, the derived daily target for 2024-06-01 is
`⌈100000 / 30⌉ = 3334`. -/
theorem C7_daily_derivation_witness :
    ((loadGoals juneInput).dailyResolved = none ∧
      (loadGoals juneInput).monthlyResolved =
        some (carryOverRequest juneNow 100000)) ∧
    (loadGoals juneInput).dailyRequest =
      some (dailyDeriveRequest juneNow
        (carryOverRequest juneNow 100000).target_amount) ∧
    (dailyDeriveRequest juneNow 100000).target_amount = 3334 :=
  ⟨⟨by decide, by decide⟩,
   (C7_daily_derivation juneInput (carryOverRequest juneNow 100000)
      (by decide) (by decide)).1,
   by
    simp only [dailyDeriveRequest]
    rw [show jsMaxI 1 (lastDayOfMonth juneNow.year juneNow.month -
        juneNow.day + 1) = 30 from by decide]
    norm_num [Rat.ceil]⟩

/-- Claim C5 counterexample: both tracks are achieved and uncelebrated;
the daily notification rejects.  The daily marker is persisted (written
before the `await`), but the run aborts: the monthly notification is
never invoked and the monthly marker stays unset — the monthly track's
achievement check does **not** execute. -/
theorem C5_notify_failure_counterexample :
    fixMonthlyProgress.is_achieved = true ∧
    fixAchievedState.lastMonthlyCelebration = none ∧
    (checkGoalAchievements juneNow "2024-06-01T00:05:00.000Z" false true
        fixAchievedState).state.lastDailyCelebration =
      some "Sat Jun 01 2024" ∧
    (checkGoalAchievements juneNow "2024-06-01T00:05:00.000Z" false true
        fixAchievedState).notifyCalls = ["daily-goal-achievement"] ∧
    (checkGoalAchievements juneNow "2024-06-01T00:05:00.000Z" false true
        fixAchievedState).state.lastMonthlyCelebration = none ∧
    (checkGoalAchievements juneNow "2024-06-01T00:05:00.000Z" false true
        fixAchievedState).aborted = true := by
  refine ⟨rfl, rfl, by decide, by decide, by decide, by decide⟩

/-- Claim C5 (corrected): when the daily Notifier invocation fails the
persisted daily marker is *not* rolled back (it is written before the
notification is awaited), but the rejection propagates out of
`checkGoalAchievements` — which has no try/catch — so the monthly
track's achievement check does not execute in that run: no monthly
notification is attempted and the monthly marker is left unchanged. -/
theorem C5_notify_failure_amended (now : LocalNow) (iso : String)
    (s : EngineState) (dp mp : GoalProgress) (dg : SalesGoal)
    (monthlyNotifyOk : Bool)
    (hdp : s.dailyProgress = some dp) (hmp : s.monthlyProgress = some mp)
    (hach : dp.is_achieved = true) (hdg : s.dailyGoal = some dg)
    (hmarker : s.lastDailyCelebration ≠
      some (toDateStringOf now.year now.month now.day)) :
    (checkGoalAchievements now iso false monthlyNotifyOk
        s).state.lastDailyCelebration =
      some (toDateStringOf now.year now.month now.day) ∧
    (checkGoalAchievements now iso false monthlyNotifyOk s).notifyCalls =
      ["daily-goal-achievement"] ∧
    (checkGoalAchievements now iso false monthlyNotifyOk
        s).state.lastMonthlyCelebration = s.lastMonthlyCelebration ∧
    (checkGoalAchievements now iso false monthlyNotifyOk s).aborted =
      true := by
  cases hsm : staleMarker s.lastDailyCelebration
      (toDateStringOf now.year now.month now.day) <;>
    simp [checkGoalAchievements, hdp, hmp, hdg, hach, hmarker, hsm]

/-- Witness for C5 (amended) at the June 2024 achieved state. -/
theorem C5_notify_failure_amended_witness :
    (fixDailyProgress.is_achieved = true ∧
      fixAchievedState.lastDailyCelebration ≠
        some (toDateStringOf 2024 5 1)) ∧
    (checkGoalAchievements juneNow "2024-06-01T00:05:00.000Z" false true
        fixAchievedState).state.lastDailyCelebration =
      some (toDateStringOf 2024 5 1) ∧
    (checkGoalAchievements juneNow "2024-06-01T00:05:00.000Z" false true
        fixAchievedState).notifyCalls = ["daily-goal-achievement"] ∧
    (checkGoalAchievements juneNow "2024-06-01T00:05:00.000Z" false true
        fixAchievedState).state.lastMonthlyCelebration =
      fixAchievedState.lastMonthlyCelebration ∧
    (checkGoalAchievements juneNow "2024-06-01T00:05:00.000Z" false true
        fixAchievedState).aborted = true :=
  ⟨⟨rfl, by decide⟩,
   C5_notify_failure_amended juneNow "2024-06-01T00:05:00.000Z"
     fixAchievedState fixDailyProgress fixMonthlyProgress fixDailyGoal
     true rfl rfl rfl rfl (by decide)⟩

/-- `checkGoalAchievements` never writes the progress fields. -/
theorem check_preserves_progress (now : LocalNow) (iso : String)
    (dOk mOk : Bool) (s : EngineState) :
    (checkGoalAchievements now iso dOk mOk s).state.dailyProgress =
      s.dailyProgress ∧
    (checkGoalAchievements now iso dOk mOk s).state.monthlyProgress =
      s.monthlyProgress := by
  obtain ⟨dgo, mgo, dpr, mpr, lc, ldc, lmc⟩ := s
  refine ⟨?_, ?_⟩ <;>
    · simp only [checkGoalAchievements, checkMonthlyPart]
      repeat' split
      all_goals rfl

/-- A state whose daily marker already equals today's key and whose
monthly marker already equals this month's key whenever the monthly
progress is achieved makes `checkGoalAchievements` a no-op. -/
theorem check_quiet (now : LocalNow) (iso : String) (t : EngineState)
    (dp mp : GoalProgress)
    (hdp : t.dailyProgress = some dp) (hmp : t.monthlyProgress = some mp)
    (hdm : t.lastDailyCelebration =
      some (toDateStringOf now.year now.month now.day))
    (hmark : mp.is_achieved = true →
      t.lastMonthlyCelebration = some (monthKeyOf now)) :
    checkGoalAchievements now iso true true t =
      { state := t, notifyCalls := [], celebrationsSet := [],
        aborted := false } := by
  cases hach : mp.is_achieved with
  | false =>
    simp [checkGoalAchievements, checkMonthlyPart, hdp, hmp, hdm,
      staleMarker, hach]
  | true =>
    have hmk := hmark hach
    simp [checkGoalAchievements, checkMonthlyPart, hdp, hmp, hdm,
      staleMarker, hach, hmk]

/-- The first `checkGoalAchievements` call of a day on which the daily
track is achieved: it notifies the daily track exactly once, dispatches
exactly one daily celebration, stamps the daily marker with today's key,
and handles the monthly track according to its own marker. -/
theorem check_fires_daily (now : LocalNow) (iso : String)
    (s : EngineState) (dp mp : GoalProgress) (dg mg : SalesGoal)
    (hdp : s.dailyProgress = some dp) (hmp : s.monthlyProgress = some mp)
    (hach : dp.is_achieved = true)
    (hdg : s.dailyGoal = some dg) (hmg : s.monthlyGoal = some mg)
    (hmarker : s.lastDailyCelebration ≠
      some (toDateStringOf now.year now.month now.day)) :
    (checkGoalAchievements now iso true true
        s).state.lastDailyCelebration =
      some (toDateStringOf now.year now.month now.day) ∧
    (checkGoalAchievements now iso true true s).notifyCalls.count
      "daily-goal-achievement" = 1 ∧
    (checkGoalAchievements now iso true true s).celebrationsSet.countP
      (fun c => c.goalType == "daily") = 1 ∧
    (mp.is_achieved = true →
      (checkGoalAchievements now iso true true
          s).state.lastMonthlyCelebration = some (monthKeyOf now)) ∧
    (mp.is_achieved = false →
      (checkGoalAchievements now iso true true
          s).state.lastMonthlyCelebration = s.lastMonthlyCelebration) ∧
    (mp.is_achieved = true →
      s.lastMonthlyCelebration ≠ some (monthKeyOf now) →
      (checkGoalAchievements now iso true true s).notifyCalls.count
        "monthly-goal-achievement" = 1 ∧
      (checkGoalAchievements now iso true true s).celebrationsSet.countP
        (fun c => c.goalType == "monthly") = 1) := by
  by_cases hmcond : mp.is_achieved = true ∧
      s.lastMonthlyCelebration ≠ some (monthKeyOf now)
  · obtain ⟨hma, hmm⟩ := hmcond
    cases hsm : staleMarker s.lastDailyCelebration
        (toDateStringOf now.year now.month now.day) <;>
      simp [checkGoalAchievements, checkMonthlyPart, hdp, hmp, hdg, hmg,
        hach, hmarker, hsm, hma, hmm, List.count_cons, List.count_nil,
        List.countP_cons, List.countP_nil]
  · rcases not_and_or.mp hmcond with hma | hmm
    · have hma' : mp.is_achieved = false := by
        cases h : mp.is_achieved
        · rfl
        · exact absurd h hma
      cases hsm : staleMarker s.lastDailyCelebration
          (toDateStringOf now.year now.month now.day) <;>
        simp [checkGoalAchievements, checkMonthlyPart, hdp, hmp, hdg,
          hmg, hach, hmarker, hsm, hma', List.count_cons, List.count_nil,
          List.countP_cons, List.countP_nil]
    · have hmm' : s.lastMonthlyCelebration = some (monthKeyOf now) :=
        not_not.mp hmm
      cases hsm : staleMarker s.lastDailyCelebration
          (toDateStringOf now.year now.month now.day) <;>
        simp [checkGoalAchievements, checkMonthlyPart, hdp, hmp, hdg,
          hmg, hach, hmarker, hsm, hmm', List.count_cons, List.count_nil,
          List.countP_cons, List.countP_nil]

/-- Iterating `checkGoalAchievements` from a quiet state stays put and
emits nothing. -/
theorem runChecks_quiet (now : LocalNow) (iso : String) (t : EngineState)
    (dp mp : GoalProgress)
    (hdp : t.dailyProgress = some dp) (hmp : t.monthlyProgress = some mp)
    (hdm : t.lastDailyCelebration =
      some (toDateStringOf now.year now.month now.day))
    (hmark : mp.is_achieved = true →
      t.lastMonthlyCelebration = some (monthKeyOf now)) :
    ∀ k : ℕ, runChecks now iso t k = (t, [], []) := by
  intro k
  induction k with
  | zero => rfl
  | succ k ih =>
    unfold runChecks
    rw [check_quiet now iso t dp mp hdp hmp hdm hmark]
    simpa using ih

/-- Claim C2 (confirmed): over any sequence of `checkGoalAchievements`
invocations within the same calendar day during which the daily progress
stays achieved, the daily Notifier is invoked exactly once and exactly
one daily celebration is dispatched; symmetrically for the monthly track
within the same month; and once the first call has run, every later call
is a complete no-op (state — including the persisted markers and
`lastCelebration` — unchanged, no notifications, no dispatches). -/
theorem C2_idempotent_achievement (now : LocalNow) (iso : String)
    (s : EngineState) (dp mp : GoalProgress) (dg mg : SalesGoal) (n : ℕ)
    (hdp : s.dailyProgress = some dp) (hmp : s.monthlyProgress = some mp)
    (hach : dp.is_achieved = true)
    (hdg : s.dailyGoal = some dg) (hmg : s.monthlyGoal = some mg)
    (hmarker : s.lastDailyCelebration ≠
      some (toDateStringOf now.year now.month now.day))
    (hn : 1 ≤ n) :
    ((runChecks now iso s n).2.1.count "daily-goal-achievement" = 1 ∧
      (runChecks now iso s n).2.2.countP
        (fun c => c.goalType == "daily") = 1) ∧
    (mp.is_achieved = true →
      s.lastMonthlyCelebration ≠ some (monthKeyOf now) →
      (runChecks now iso s n).2.1.count "monthly-goal-achievement" = 1 ∧
      (runChecks now iso s n).2.2.countP
        (fun c => c.goalType == "monthly") = 1) ∧
    checkGoalAchievements now iso true true (runChecks now iso s n).1 =
      { state := (runChecks now iso s n).1, notifyCalls := [],
        celebrationsSet := [], aborted := false } := by
  obtain ⟨k, rfl⟩ : ∃ k, n = k + 1 := ⟨n - 1, by omega⟩
  have hfire := check_fires_daily now iso s dp mp dg mg hdp hmp hach hdg
    hmg hmarker
  have hpres := check_preserves_progress now iso true true s
  set r := checkGoalAchievements now iso true true s with hr
  have hdp' : r.state.dailyProgress = some dp := by rw [hpres.1, hdp]
  have hmp' : r.state.monthlyProgress = some mp := by rw [hpres.2, hmp]
  have hdm' : r.state.lastDailyCelebration =
      some (toDateStringOf now.year now.month now.day) := hfire.1
  have hmark' : mp.is_achieved = true →
      r.state.lastMonthlyCelebration = some (monthKeyOf now) :=
    hfire.2.2.2.1
  have hrest := runChecks_quiet now iso r.state dp mp hdp' hmp' hdm'
    hmark' k
  have hrun : runChecks now iso s (k + 1) =
      (r.state, r.notifyCalls, r.celebrationsSet) := by
    unfold runChecks
    rw [← hr]
    simp only [hrest]
    simp
  rw [hrun]
  refine ⟨⟨hfire.2.1, hfire.2.2.1⟩, ?_, ?_⟩
  · intro h1 h2
    exact hfire.2.2.2.2.2 h1 h2
  · exact check_quiet now iso r.state dp mp hdp' hmp' hdm' hmark'

/-- Witness for C2: three consecutive checks on the June 2024 achieved
state notify each track exactly once and end in a no-op fixpoint. -/
theorem C2_idempotent_achievement_witness :
    (fixDailyProgress.is_achieved = true ∧
      fixAchievedState.lastDailyCelebration ≠
        some (toDateStringOf 2024 5 1) ∧
      fixAchievedState.lastMonthlyCelebration ≠
        some (monthKeyOf juneNow) ∧ (1 : ℕ) ≤ 3) ∧
    ((runChecks juneNow "2024-06-01T00:05:00.000Z" fixAchievedState
        3).2.1.count "daily-goal-achievement" = 1 ∧
      (runChecks juneNow "2024-06-01T00:05:00.000Z" fixAchievedState
        3).2.2.countP (fun c => c.goalType == "daily") = 1) ∧
    ((runChecks juneNow "2024-06-01T00:05:00.000Z" fixAchievedState
        3).2.1.count "monthly-goal-achievement" = 1 ∧
      (runChecks juneNow "2024-06-01T00:05:00.000Z" fixAchievedState
        3).2.2.countP (fun c => c.goalType == "monthly") = 1) ∧
    checkGoalAchievements juneNow "2024-06-01T00:05:00.000Z" true true
        (runChecks juneNow "2024-06-01T00:05:00.000Z" fixAchievedState
          3).1 =
      { state := (runChecks juneNow "2024-06-01T00:05:00.000Z"
          fixAchievedState 3).1, notifyCalls := [],
        celebrationsSet := [], aborted := false } := by
  have h := C2_idempotent_achievement juneNow "2024-06-01T00:05:00.000Z"
    fixAchievedState fixDailyProgress fixMonthlyProgress fixDailyGoal
    fixMonthlyGoal 3 rfl rfl rfl rfl rfl (by decide) (by norm_num)
  exact ⟨⟨rfl, by decide, by decide, by norm_num⟩, h.1,
    h.2.1 rfl (by decide), h.2.2⟩

end GoalEngine
